import Mathlib

/-!
Verification development for the cqrs-account repository: a shallow
embedding in Lean 4 of the Account aggregate (src/account/aggregate.rs),
the AccountView projection (src/account/queries.rs), the Order saga
(src/order/aggregate.rs), the Transfer saga (src/transfer/aggregate.rs)
and the compensation guard (src/util/transaction_guard.rs), together with
theorems settling the specification claims about them.

Modelling conventions:
- `BTreeMap` values are embedded as association lists with unique keys;
  `lookupA`, `insertA`, `eraseA` implement the map operations.
- 32-byte identifiers (`ByteArray32`) are embedded as `Nat` (an opaque
  identifier type with decidable equality).
- `u64` quantities are `Nat`; the source's `checked_add`/`checked_sub`
  are embedded with an explicit `U64MAX` bound.
- Rust panics (`expect`, `unreachable!`, a failed checked operation) are
  embedded as `none` of an `Option`-returning function.
- `VecDeque` front is the list head; `push_back` appends, `push_front`
  conses, `pop_front` takes the head.
-/

namespace CqrsAccount

/-- The largest `u64` value, `2 ^ 64 - 1`. -/
def U64MAX : Nat := 18446744073709551615

/-- `u64::checked_add`: `none` on overflow past `U64MAX`. -/
def checkedAdd (a b : Nat) : Option Nat :=
  if a + b ≤ U64MAX then some (a + b) else none

/-- `u64::checked_sub`: `none` on underflow below zero. -/
def checkedSub (a b : Nat) : Option Nat :=
  if b ≤ a then some (a - b) else none

instance {ε α : Type} [DecidableEq ε] [DecidableEq α] :
    DecidableEq (Except ε α) := fun x y =>
  match x, y with
  | .ok a, .ok b =>
    if h : a = b then .isTrue (by rw [h])
    else .isFalse (by intro hh; cases hh; exact h rfl)
  | .error a, .error b =>
    if h : a = b then .isTrue (by rw [h])
    else .isFalse (by intro hh; cases hh; exact h rfl)
  | .ok _, .error _ => .isFalse (by intro hh; cases hh)
  | .error _, .ok _ => .isFalse (by intro hh; cases hh)

section AssocMap

variable {α : Type} {β : Type} [DecidableEq α]

/-- `BTreeMap::get`: first (unique) binding of a key. -/
def lookupA : List (α × β) → α → Option β
  | [], _ => none
  | (a, b) :: t, k => if a = k then some b else lookupA t k

/-- `BTreeMap::insert`: replace the binding if the key is present,
append it otherwise. -/
def insertA : List (α × β) → α → β → List (α × β)
  | [], k, v => [(k, v)]
  | (a, b) :: t, k, v => if a = k then (k, v) :: t else (a, b) :: insertA t k v

/-- `BTreeMap::remove`: drop every binding of the key (a map holds at
most one). -/
def eraseA (l : List (α × β)) (k : α) : List (α × β) :=
  l.filter (fun p => p.1 ≠ k)

/-- Lookup with a default, mirroring `map.get(&k).unwrap_or(&d)`. -/
def getDA (l : List (α × β)) (k : α) (d : β) : β :=
  (lookupA l k).getD d

theorem lookupA_insertA_self (l : List (α × β)) (k : α) (v : β) :
    lookupA (insertA l k v) k = some v := by
  induction l with
  | nil => simp [insertA, lookupA]
  | cons p t ih =>
    obtain ⟨a, b⟩ := p
    by_cases h : a = k
    · simp [insertA, lookupA, h]
    · simp [insertA, lookupA, h, ih]

theorem lookupA_insertA_ne (l : List (α × β)) (k k' : α) (v : β) (h : k' ≠ k) :
    lookupA (insertA l k v) k' = lookupA l k' := by
  have h2 : ¬ (k = k') := fun hh => h hh.symm
  induction l with
  | nil => simp [insertA, lookupA, h2]
  | cons p t ih =>
    obtain ⟨a, b⟩ := p
    by_cases ha : a = k
    · subst ha
      simp [insertA, lookupA, h2]
    · by_cases ha' : a = k'
      · subst ha'
        simp [insertA, lookupA, ha, h]
      · simp [insertA, lookupA, ha, ha', ih]

theorem lookupA_eraseA_self (l : List (α × β)) (k : α) :
    lookupA (eraseA l k) k = none := by
  induction l with
  | nil => simp [eraseA, lookupA]
  | cons p t ih =>
    obtain ⟨a, b⟩ := p
    by_cases h : a = k
    · simpa [eraseA, List.filter, h] using ih
    · simpa [eraseA, List.filter, h, lookupA] using ih

theorem lookupA_eraseA_ne (l : List (α × β)) (k k' : α) (h : k' ≠ k) :
    lookupA (eraseA l k) k' = lookupA l k' := by
  induction l with
  | nil => simp [eraseA, lookupA]
  | cons p t ih =>
    obtain ⟨a, b⟩ := p
    by_cases ha : a = k
    · subst ha
      have ha' : a ≠ k' := fun hh => h hh.symm
      simpa [eraseA, List.filter, lookupA, ha'] using ih
    · by_cases ha' : a = k'
      · subst ha'
        simp [eraseA, List.filter, lookupA, h, ha]
      · simpa [eraseA, List.filter, ha, lookupA, ha'] using ih

theorem insertA_ne_nil (l : List (α × β)) (k : α) (v : β) :
    insertA l k v ≠ [] := by
  induction l with
  | nil => simp [insertA]
  | cons p t ih =>
    obtain ⟨a, b⟩ := p
    by_cases h : a = k <;> simp [insertA, h]

end AssocMap

/-! ## Dedup window (`ProcessedTransactions`, src/account/aggregate.rs) -/

/-- `DEFAULT_TTL = 30 * 24 * 60 * 60` seconds. -/
def DEFAULT_TTL : Nat := 30 * 24 * 60 * 60

/-- The dedup window: a txid → first-seen-timestamp map and an insertion
queue of `(timestamp, txid)` pairs, pruned by a sliding TTL. -/
structure ProcessedTransactions where
  ttl : Nat
  txids : List (Nat × Nat)
  timeseries : List (Nat × Nat)
  deriving DecidableEq, Repr

namespace ProcessedTransactions

/-- `ProcessedTransactions::new(ttl)`. -/
def new (ttl : Nat) : ProcessedTransactions :=
  { ttl := ttl, txids := [], timeseries := [] }

/-- `ProcessedTransactions::get_timestamp`. -/
def get_timestamp (pt : ProcessedTransactions) (txid : Nat) : Option Nat :=
  lookupA pt.txids txid

/-- The `while let Some((txts, txid)) = self.timeseries.pop_front()` prune
loop of `ProcessedTransactions::insert`.  Note the loop pushes
`(timestamp, txid)` — the NEW timestamp paired with the popped txid — back
to the front, exactly as the source does (the source's `timestamp` binding
shadows the popped `txts`). -/
def pruneFront (ttl timestamp : Nat) :
    List (Nat × Nat) → List (Nat × Nat) → List (Nat × Nat) × List (Nat × Nat)
  | [], m => ([], m)
  | (txts, txid) :: rest, m =>
    if txts + ttl < timestamp then pruneFront ttl timestamp rest (eraseA m txid)
    else ((timestamp, txid) :: rest, m)

/-- `ProcessedTransactions::insert`: `Err(prior_ts)` on a duplicate txid,
otherwise record the txid, append to the queue, and prune the queue front. -/
def insert (pt : ProcessedTransactions) (txid timestamp : Nat) :
    Except Nat ProcessedTransactions :=
  match lookupA pt.txids txid with
  | some txts => .error txts
  | none =>
    let m := insertA pt.txids txid timestamp
    let series := pt.timeseries ++ [(timestamp, txid)]
    let pruned := pruneFront pt.ttl timestamp series m
    .ok { ttl := pt.ttl, txids := pruned.2, timeseries := pruned.1 }

/-- `ProcessedTransactions::remove`: erase the txid from the map and drop
its queue entries; `none` when absent. -/
def remove (pt : ProcessedTransactions) (txid : Nat) :
    Option (Nat × ProcessedTransactions) :=
  match lookupA pt.txids txid with
  | some timestamp =>
    some (timestamp,
      { ttl := pt.ttl
        txids := eraseA pt.txids txid
        timeseries := pt.timeseries.filter (fun p => p.2 ≠ txid) })
  | none => none

end ProcessedTransactions

/-! ## Account aggregate data model (src/account/aggregate.rs) -/

/-- `ReservedFunds`: the (asset, amount) held by a lock. -/
structure ReservedFunds where
  asset : String
  amount : Nat
  deriving DecidableEq, Repr

/-- `BankAccountState`. `reserving` maps a lock id (= the txid of the
`FundsLocked` event) to the reserved funds. -/
structure BankAccountState where
  account_id : String
  assets : List (String × Nat)
  reserving : List (Nat × ReservedFunds)
  processed_transactions : ProcessedTransactions
  deriving DecidableEq, Repr

namespace BankAccountState

/-- `BankAccountState::is_empty`. -/
def is_empty (s : BankAccountState) : Bool :=
  s.assets.isEmpty && s.reserving.isEmpty

/-- `BankAccountState::save_txid`; the source `expect`s the insert to
succeed, so a duplicate is a panic (`none`). -/
def save_txid (s : BankAccountState) (txid timestamp : Nat) :
    Option BankAccountState :=
  match s.processed_transactions.insert txid timestamp with
  | .ok pt => some { s with processed_transactions := pt }
  | .error _ => none

/-- `BankAccountState::remove_txid`; the source `expect`s the txid to be
present, so a missing txid is a panic (`none`). -/
def remove_txid (s : BankAccountState) (txid : Nat) :
    Option BankAccountState :=
  match s.processed_transactions.remove txid with
  | some (_, pt) => some { s with processed_transactions := pt }
  | none => none

end BankAccountState

/-- The `Account` aggregate variant. -/
inductive Account where
  | Uninitialized
  | InService (state : BankAccountState)
  | Disabled (state : BankAccountState)
  | Closed
  deriving DecidableEq, Repr

/-- `AccountError` (src/account/events.rs). -/
inductive AccountError where
  | InsufficientFunds
  | AccountNotFound
  | AccountAlreadyExists
  | AccountNotDisabled
  | AccountNotInService
  | AccountNotEmpty
  | LockNotFound
  | InvalidTransaction
  | DuplicateLock
  | DuplicateTransaction (timestamp : Nat)
  | TransactionNotFound
  deriving DecidableEq, Repr

/-- `LifecycleCommand`. -/
inductive LifecycleCommand where
  | Open (account_id : String)
  | Disable
  | Enable
  | Close
  deriving DecidableEq, Repr

/-- `TransactionCommand`, with the field shapes used by
src/account/aggregate.rs (`LockFunds` carries asset and amount and is
keyed by the command's txid; `Settle` carries the counterparty and the
receive leg). -/
inductive TransactionCommand where
  | Deposit (asset : String) (amount : Nat)
  | Withdraw (asset : String) (amount : Nat)
  | Credit (from_account : String) (asset : String) (amount : Nat)
  | ReverseCredit (from_account : String) (asset : String) (amount : Nat)
  | ReverseDebit (to_account : String) (asset : String) (amount : Nat)
  | Debit (to_account : String) (asset : String) (amount : Nat)
  | LockFunds (asset : String) (amount : Nat)
  | UnlockFunds
  | Settle (to_account : String) (receive_asset : String) (receive_amount : Nat)
  deriving DecidableEq, Repr

/-- `AccountCommand`. -/
inductive AccountCommand where
  | Lifecycle (command : LifecycleCommand)
  | Transaction (txid : Nat) (timestamp : Nat) (command : TransactionCommand)
  deriving DecidableEq, Repr

/-- `LifecycleEvent`. -/
inductive LifecycleEvent where
  | AccountOpened (account_id : String)
  | AccountDisabled
  | AccountEnabled
  | AccountClosed
  deriving DecidableEq, Repr

/-- `TransactionEvent`, with the field shapes used by
src/account/aggregate.rs and src/account/queries.rs. -/
inductive TransactionEvent where
  | Deposited (asset : String) (amount : Nat)
  | Withdrew (asset : String) (amount : Nat)
  | Debited (to_account : String) (asset : String) (amount : Nat)
  | DebitReversed (to_account : String) (asset : String) (amount : Nat)
  | Credited (from_account : String) (asset : String) (amount : Nat)
  | CreditReversed (from_account : String) (asset : String) (amount : Nat)
  | FundsLocked (asset : String) (amount : Nat)
  | FundsUnlocked (asset : String) (amount : Nat)
  | Settled (to_account : String) (send_asset : String) (send_amount : Nat)
      (receive_asset : String) (receive_amount : Nat)
  deriving DecidableEq, Repr

/-- `AccountEvent`. -/
inductive AccountEvent where
  | Lifecycle (event : LifecycleEvent)
  | Transaction (timestamp : Nat) (txid : Nat) (event : TransactionEvent)
  deriving DecidableEq, Repr

namespace Account

/-- `Account::handle` (the `services` parameter of the source is unused by
the account handler and is omitted). Each arm mirrors the source match in
src/account/aggregate.rs lines 125-325. -/
def handle (a : Account) (command : AccountCommand) :
    Except AccountError (List AccountEvent) :=
  match command with
  | .Lifecycle c =>
    match c with
    | .Open account_id =>
      match a with
      | .Uninitialized | .Closed =>
        .ok [.Lifecycle (.AccountOpened account_id)]
      | _ => .error .AccountAlreadyExists
    | .Disable =>
      match a with
      | .InService _ => .ok [.Lifecycle .AccountDisabled]
      | _ => .error .AccountNotInService
    | .Enable =>
      match a with
      | .Disabled _ => .ok [.Lifecycle .AccountEnabled]
      | _ => .error .AccountNotDisabled
    | .Close =>
      match a with
      | .Uninitialized | .Closed => .error .AccountNotFound
      | .InService state =>
        if state.is_empty then .ok [.Lifecycle .AccountClosed]
        else .error .AccountNotEmpty
      | .Disabled state =>
        if state.is_empty then .ok [.Lifecycle .AccountClosed]
        else .error .AccountNotEmpty
  | .Transaction txid timestamp c =>
    match a with
    | .Uninitialized | .Closed => .error .AccountNotFound
    | .Disabled _ => .error .AccountNotInService
    | .InService state =>
      match c with
      | .Deposit asset amount =>
        match state.processed_transactions.get_timestamp txid with
        | some prior => .error (.DuplicateTransaction prior)
        | none => .ok [.Transaction timestamp txid (.Deposited asset amount)]
      | .Withdraw asset amount =>
        match state.processed_transactions.get_timestamp txid with
        | some prior => .error (.DuplicateTransaction prior)
        | none =>
          if getDA state.assets asset 0 < amount then
            .error .InsufficientFunds
          else
            .ok [.Transaction timestamp txid (.Withdrew asset amount)]
      | .Credit from_account asset amount =>
        match state.processed_transactions.get_timestamp txid with
        | some prior => .error (.DuplicateTransaction prior)
        | none =>
          .ok [.Transaction timestamp txid (.Credited from_account asset amount)]
      | .ReverseCredit from_account asset amount =>
        match state.processed_transactions.get_timestamp txid with
        | some prior =>
          .ok [.Transaction prior txid (.CreditReversed from_account asset amount)]
        | none => .error .TransactionNotFound
      | .ReverseDebit to_account asset amount =>
        match state.processed_transactions.get_timestamp txid with
        | some prior =>
          .ok [.Transaction prior txid (.DebitReversed to_account asset amount)]
        | none => .error .TransactionNotFound
      | .Debit to_account asset amount =>
        match state.processed_transactions.get_timestamp txid with
        | some prior => .error (.DuplicateTransaction prior)
        | none =>
          if getDA state.assets asset 0 < amount then
            .error .InsufficientFunds
          else
            .ok [.Transaction timestamp txid (.Debited to_account asset amount)]
      | .LockFunds asset amount =>
        if (lookupA state.reserving txid).isSome then
          .error .DuplicateLock
        else if getDA state.assets asset 0 < amount then
          .error .InsufficientFunds
        else
          .ok [.Transaction timestamp txid (.FundsLocked asset amount)]
      | .UnlockFunds =>
        match lookupA state.reserving txid with
        | some locked =>
          .ok [.Transaction timestamp txid (.FundsUnlocked locked.asset locked.amount)]
        | none => .error .LockNotFound
      | .Settle to_account receive_asset receive_amount =>
        match state.processed_transactions.get_timestamp txid with
        | some prior => .error (.DuplicateTransaction prior)
        | none =>
          match lookupA state.reserving txid with
          | none => .error .LockNotFound
          | some locked =>
            .ok [.Transaction timestamp txid
              (.Settled to_account locked.asset locked.amount receive_asset receive_amount)]

/-- `Account::apply` (src/account/aggregate.rs lines 327-449); `none`
embeds the source's panics (`unreachable!`, failed `expect`, failed
checked arithmetic). -/
def apply (a : Account) (event : AccountEvent) : Option Account :=
  match event with
  | .Lifecycle e =>
    match e with
    | .AccountOpened account_id =>
      some (.InService
        { account_id := account_id
          assets := []
          reserving := []
          processed_transactions := ProcessedTransactions.new DEFAULT_TTL })
    | .AccountDisabled =>
      match a with
      | .InService state => some (.Disabled state)
      | _ => none
    | .AccountEnabled =>
      match a with
      | .Disabled state => some (.InService state)
      | _ => none
    | .AccountClosed => some .Closed
  | .Transaction timestamp txid e =>
    match a with
    | .InService state =>
      match e with
      | .Deposited asset amount => do
        let s ← state.save_txid txid timestamp
        let b ← checkedAdd (getDA s.assets asset 0) amount
        some (.InService { s with assets := insertA s.assets asset b })
      | .Withdrew asset amount => do
        let s ← state.save_txid txid timestamp
        let b ← checkedSub (getDA s.assets asset 0) amount
        some (.InService { s with assets := insertA s.assets asset b })
      | .Debited _ asset amount => do
        let s ← state.save_txid txid timestamp
        let b ← checkedSub (getDA s.assets asset 0) amount
        some (.InService { s with assets := insertA s.assets asset b })
      | .DebitReversed _ asset amount => do
        let s ← state.remove_txid txid
        let b ← checkedAdd (getDA s.assets asset 0) amount
        some (.InService { s with assets := insertA s.assets asset b })
      | .Credited _ asset amount => do
        let s ← state.save_txid txid timestamp
        let b ← checkedAdd (getDA s.assets asset 0) amount
        some (.InService { s with assets := insertA s.assets asset b })
      | .CreditReversed _ asset amount => do
        let s ← state.remove_txid txid
        let b ← checkedSub (getDA s.assets asset 0) amount
        some (.InService { s with assets := insertA s.assets asset b })
      | .FundsLocked asset amount => do
        let b ← checkedSub (getDA state.assets asset 0) amount
        some (.InService
          { state with
            assets := insertA state.assets asset b
            reserving := insertA state.reserving txid ⟨asset, amount⟩ })
      | .FundsUnlocked _ _ => do
        let reserved ← lookupA state.reserving txid
        let b ← checkedAdd (getDA state.assets reserved.asset 0) reserved.amount
        some (.InService
          { state with
            assets := insertA state.assets reserved.asset b
            reserving := eraseA state.reserving txid })
      | .Settled _ _ _ _ _ => do
        let s ← state.save_txid txid timestamp
        let _ ← lookupA s.reserving txid
        some (.InService { s with reserving := eraseA s.reserving txid })
    | _ => none

end Account

/-! ## AccountView projection (src/account/queries.rs)

Unchecked `+=`/`-=` of the source are embedded as plain `Nat` addition
and truncated subtraction; the explicitly checked operations and the
`unreachable!`/`panic!` branches of the `Settled`, `FundsLocked` and
`FundsUnlocked` arms are embedded through `Option`.  The source stores
the lowercase hex rendering of the txid in a ledger entry; we keep the
identifier itself. -/

def RECENT_LEDGER_SIZE : Nat := 100

/-- `LedgerDetail`. -/
inductive LedgerDetail where
  | Deposit (asset : String) (amount : Nat)
  | Withdraw (asset : String) (amount : Nat)
  | Debited (to_account : String) (asset : String) (amount : Nat)
  | DebitReversed (to_account : String) (asset : String) (amount : Nat)
  | Credited (from_account : String) (asset : String) (amount : Nat)
  | CreditReversed (from_account : String) (asset : String) (amount : Nat)
  | Lock (asset : String) (amount : Nat)
  | Unlock (asset : String) (amount : Nat)
  | Settlement (to_account : String) (send_asset : String) (send_amount : Nat)
      (receive_asset : String) (receive_amount : Nat)
  deriving DecidableEq, Repr

/-- `LedgerEntry`. -/
structure LedgerEntry where
  timestamp : Nat
  txid : Nat
  detail : LedgerDetail
  deriving DecidableEq, Repr

/-- `AccountView`; `recent_ledger` front is the list head. -/
structure AccountView where
  account_id : Option String := none
  is_disabled : Bool := false
  balance : List (String × Nat) := []
  locked_balance : List (String × Nat) := []
  recent_ledger : List LedgerEntry := []
  deriving DecidableEq, Repr

namespace AccountView

/-- `AccountView::add_ledger`: push to the front, evict from the back
past `RECENT_LEDGER_SIZE`. -/
def add_ledger (v : AccountView) (entry : LedgerEntry) : AccountView :=
  let l := entry :: v.recent_ledger
  { v with recent_ledger := if l.length > RECENT_LEDGER_SIZE then l.dropLast else l }

/-- `entry(k).and_modify(|e| *e += amount).or_insert(amount)`. -/
def bumpAdd (m : List (String × Nat)) (k : String) (amount : Nat) :
    List (String × Nat) :=
  match lookupA m k with
  | some e => insertA m k (e + amount)
  | none => insertA m k amount

/-- `entry(k).and_modify(|e| *e -= amount).or_insert(0)` (the source's
subtraction here is unchecked). -/
def bumpSub (m : List (String × Nat)) (k : String) (amount : Nat) :
    List (String × Nat) :=
  match lookupA m k with
  | some e => insertA m k (e - amount)
  | none => insertA m k 0

/-- `View::<Account>::update` for `AccountView` (only the event payload of
the envelope is read). -/
def update (v : AccountView) (event : AccountEvent) : Option AccountView :=
  match event with
  | .Lifecycle e =>
    match e with
    | .AccountOpened account_id => some { v with account_id := some account_id }
    | .AccountClosed => some {}
    | .AccountDisabled => some { v with is_disabled := true }
    | .AccountEnabled => some { v with is_disabled := false }
  | .Transaction timestamp txid e =>
    match e with
    | .Deposited asset amount =>
      some (add_ledger
        { v with balance := bumpAdd v.balance asset amount }
        ⟨timestamp, txid, .Deposit asset amount⟩)
    | .Withdrew asset amount =>
      some (add_ledger
        { v with balance := bumpSub v.balance asset amount }
        ⟨timestamp, txid, .Withdraw asset amount⟩)
    | .Debited to_account asset amount =>
      some (add_ledger
        { v with balance := bumpSub v.balance asset amount }
        ⟨timestamp, txid, .Debited to_account asset amount⟩)
    | .DebitReversed to_account asset amount =>
      some (add_ledger
        { v with balance := bumpAdd v.balance asset amount }
        ⟨timestamp, txid, .DebitReversed to_account asset amount⟩)
    | .Credited from_account asset amount =>
      some (add_ledger
        { v with balance := bumpAdd v.balance asset amount }
        ⟨timestamp, txid, .Credited from_account asset amount⟩)
    | .CreditReversed from_account asset amount =>
      some (add_ledger
        { v with balance := bumpSub v.balance asset amount }
        ⟨timestamp, txid, .CreditReversed from_account asset amount⟩)
    | .FundsLocked asset amount =>
      -- balance: and_modify(-=) with or_insert_with(unreachable!)
      match lookupA v.balance asset with
      | none => none
      | some e =>
        some (add_ledger
          { v with
            balance := insertA v.balance asset (e - amount)
            locked_balance := bumpAdd v.locked_balance asset amount }
          ⟨timestamp, txid, .Lock asset amount⟩)
    | .FundsUnlocked asset amount =>
      -- locked_balance: and_modify(-=) with or_insert_with(unreachable!)
      match lookupA v.locked_balance asset with
      | none => none
      | some e =>
        some (add_ledger
          { v with
            balance := bumpAdd v.balance asset amount
            locked_balance := insertA v.locked_balance asset (e - amount) }
          ⟨timestamp, txid, .Unlock asset amount⟩)
    | .Settled to_account send_asset send_amount receive_asset receive_amount =>
      -- locked_balance: the and_modify closure computes
      -- `e.checked_sub(send_amount)` and panics on underflow, but never
      -- assigns the result back to `*e`; or_insert_with is unreachable!.
      match lookupA v.locked_balance send_asset with
      | none => none
      | some e =>
        if send_amount ≤ e then
          some (add_ledger
            { v with balance := bumpAdd v.balance receive_asset receive_amount }
            ⟨timestamp, txid, .Settlement to_account send_asset send_amount
              receive_asset receive_amount⟩)
        else none

end AccountView

/-! ## Order saga (src/order/aggregate.rs)

The nested calls the `OrderServices` make through the CQRS engine
(`account_service.execute`) are embedded by an explicit executor
function `exec : σ → String → AccountCommand → σ × ExecResult` over an
abstract engine state `σ`.  A `TransactionGuard` is embedded as the
pending undo it carries — the account id and the compensating command;
firing it (either `undo.await` in a service helper, or the guard's
`Drop` spawning it) executes the command through the executor and is
recorded in a fired-compensations list, in chronological order. -/

/-- Outcome of `account_service.execute`: success, a domain `UserError`,
or any infrastructure failure of the engine (the non-`UserError`
variants of `cqrs_es::AggregateError`, collapsed). -/
inductive ExecResult where
  | ok
  | userError (e : AccountError)
  | infraError
  deriving DecidableEq, Repr

/-- A pending or fired compensation: the account aggregate id it targets
and the compensating command. -/
structure Undo where
  account : String
  command : AccountCommand
  deriving DecidableEq, Repr

/-- `OrderConfig` (src/order/events.rs). -/
structure OrderConfig where
  order_id : Nat
  seller : String
  sell_asset : String
  sell_amount : Nat
  buy_asset : String
  buy_amount : Nat
  timestamp : Nat
  deriving DecidableEq, Repr

/-- The `Order` saga state. -/
inductive Order where
  | Uninitialized
  | Initialized (config : OrderConfig)
  | Placed (config : OrderConfig) (timestamp : Nat)
  | Cancelling (config : OrderConfig) (reason : String) (timestamp : Nat)
  | Cancelled (config : OrderConfig) (timestamp : Nat) (reason : String)
  | Buying (config : OrderConfig) (buyer : String) (timestamp : Nat)
  | Bought (config : OrderConfig) (buyer : String) (timestamp : Nat)
  | Failed (config : OrderConfig) (timestamp : Nat) (reason : String)
  | Settled (config : OrderConfig) (timestamp : Nat)
  deriving DecidableEq, Repr

/-- `OrderEvent`. -/
inductive OrderEvent where
  | Initialized (config : OrderConfig)
  | Placed (timestamp : Nat)
  | Cancelling (timestamp : Nat) (reason : String)
  | Cancelled (timestamp : Nat)
  | Buying (buyer : String) (timestamp : Nat)
  | Bought (timestamp : Nat)
  | Failed (timestamp : Nat) (reason : String)
  | Settled (timestamp : Nat)
  deriving DecidableEq, Repr

/-- `OrderCommand` (the `Open` payload is the order configuration, as
matched by src/order/aggregate.rs). -/
inductive OrderCommand where
  | Open (config : OrderConfig)
  | Continue
  | Cancel (reason : String)
  | Buy (buyer : String) (timestamp : Nat)
  deriving DecidableEq, Repr

/-- `OrderError`.  The source's `InvalidState` carries a formatted
diagnostic string which we do not model; `AggregateError` wraps the
engine failure payload, which we also elide. -/
inductive OrderError where
  | InvalidState
  | AccountError (e : AccountError)
  | AggregateError
  deriving DecidableEq, Repr

/-- `derive(Debug)` rendering of `AccountError`, as interpolated by
`format!("{:?}", ae)`. -/
def AccountError.debugFmt : AccountError → String
  | .InsufficientFunds => "InsufficientFunds"
  | .AccountNotFound => "AccountNotFound"
  | .AccountAlreadyExists => "AccountAlreadyExists"
  | .AccountNotDisabled => "AccountNotDisabled"
  | .AccountNotInService => "AccountNotInService"
  | .AccountNotEmpty => "AccountNotEmpty"
  | .LockNotFound => "LockNotFound"
  | .InvalidTransaction => "InvalidTransaction"
  | .DuplicateLock => "DuplicateLock"
  | .DuplicateTransaction t => "DuplicateTransaction(" ++ toString t ++ ")"
  | .TransactionNotFound => "TransactionNotFound"

/-- `AccountCommand::lock_funds(order_id, timestamp, asset, amount)`:
the lock command uses the order id as its txid (and hence as the lock
id). -/
def lockFundsCmd (order_id timestamp : Nat) (asset : String) (amount : Nat) :
    AccountCommand :=
  .Transaction order_id timestamp (.LockFunds asset amount)

/-- `AccountCommand::unlock_funds(order_id)` (timestamp 0). -/
def unlockFundsCmd (order_id : Nat) : AccountCommand :=
  .Transaction order_id 0 .UnlockFunds

/-- `AccountCommand::settle(order_id, pair_account_id, receive_asset,
receive_amount)` (timestamp 0). -/
def settleCmd (order_id : Nat) (pair_account_id : String)
    (receive_asset : String) (receive_amount : Nat) : AccountCommand :=
  .Transaction order_id 0 (.Settle pair_account_id receive_asset receive_amount)

section Sagas

variable {σ : Type}

/-- Fire an undo: execute its command against its account, discarding the
outcome (the source only logs failures), and record it. -/
def fireUndo (exec : σ → String → AccountCommand → σ × ExecResult)
    (w : σ) (u : Undo) : σ × List Undo :=
  ((exec w u.account u.command).1, [u])

/-- `OrderServices::lock_funds`: submit `LockFunds` at the seller;
`DuplicateLock` is treated as success; on any other failure the undo
(`UnlockFunds`) is awaited before the error is returned.  Returns the
engine state, the compensations fired, and on success the guard's
pending undo. -/
def lock_funds (exec : σ → String → AccountCommand → σ × ExecResult)
    (w : σ) (order_id : Nat) (seller sell_asset : String)
    (sell_amount timestamp : Nat) :
    σ × List Undo × Except OrderError Undo :=
  let undo : Undo := ⟨seller, unlockFundsCmd order_id⟩
  let r := exec w seller (lockFundsCmd order_id timestamp sell_asset sell_amount)
  match r.2 with
  | .ok => (r.1, [], .ok undo)
  | .userError .DuplicateLock => (r.1, [], .ok undo)
  | .userError ae =>
    let f := fireUndo exec r.1 undo
    (f.1, f.2, .error (.AccountError ae))
  | .infraError =>
    let f := fireUndo exec r.1 undo
    (f.1, f.2, .error .AggregateError)

/-- `OrderServices::unlock_funds`. -/
def unlock_funds (exec : σ → String → AccountCommand → σ × ExecResult)
    (w : σ) (order_id : Nat) (seller : String) :
    σ × Except OrderError Unit :=
  let r := exec w seller (unlockFundsCmd order_id)
  match r.2 with
  | .ok => (r.1, .ok ())
  | .userError ae => (r.1, .error (.AccountError ae))
  | .infraError => (r.1, .error .AggregateError)

/-- `OrderServices::settle`: submit `Settle` at `account_id` naming
`pair_account_id` as the counterparty; `DuplicateTransaction` is treated
as success. -/
def settle (exec : σ → String → AccountCommand → σ × ExecResult)
    (w : σ) (order_id : Nat) (account_id pair_account_id : String)
    (receive_asset : String) (receive_amount : Nat) :
    σ × Except OrderError Unit :=
  let r := exec w account_id
    (settleCmd order_id pair_account_id receive_asset receive_amount)
  match r.2 with
  | .ok => (r.1, .ok ())
  | .userError (.DuplicateTransaction _) => (r.1, .ok ())
  | .userError ae => (r.1, .error (.AccountError ae))
  | .infraError => (r.1, .error .AggregateError)

/-- `Order::handle` (src/order/aggregate.rs lines 189-295).  `now` stands
for `chrono::Utc::now().timestamp()`.  Returns the engine state, the
compensations fired during the call, and the handler result. -/
def Order.handle (exec : σ → String → AccountCommand → σ × ExecResult)
    (w : σ) (now : Nat) (o : Order) (c : OrderCommand) :
    σ × List Undo × Except OrderError (List OrderEvent) :=
  match o, c with
  | .Uninitialized, .Open config =>
    (w, [], .ok [.Initialized config])
  | .Initialized config, .Continue =>
    let r := lock_funds exec w config.order_id config.seller
      config.sell_asset config.sell_amount now
    match r.2.2 with
    | .error (.AccountError ae) =>
      (r.1, r.2.1,
        .ok [.Failed now ("Failed to lock funds: " ++ ae.debugFmt)])
    | .error e => (r.1, r.2.1, .error e)
    | .ok _lock_undo =>
      -- lock_undo.commit(): the guard's undo is discarded, not fired
      (r.1, r.2.1, .ok [.Placed now])
  | .Placed _ _, .Cancel reason =>
    (w, [], .ok [.Cancelling now reason])
  | .Cancelling config _ timestamp, .Continue =>
    let r := unlock_funds exec w config.order_id config.seller
    match r.2 with
    | .error e => (r.1, [], .error e)
    | .ok _ => (r.1, [], .ok [.Cancelled timestamp])
  | .Placed _ _, .Buy buyer timestamp =>
    (w, [], .ok [.Buying buyer timestamp])
  | .Buying config buyer timestamp, .Continue =>
    let r := lock_funds exec w config.order_id buyer
      config.buy_asset config.buy_amount timestamp
    match r.2.2 with
    | .error (.AccountError _) =>
      (r.1, r.2.1, .ok [.Placed timestamp])
    | .error e => (r.1, r.2.1, .error e)
    | .ok _lock_undo =>
      -- lock_undo.commit()
      (r.1, r.2.1, .ok [.Bought now])
  | .Bought config buyer timestamp, .Continue =>
    let r1 := settle exec w config.order_id config.seller buyer
      config.buy_asset config.buy_amount
    match r1.2 with
    | .error e => (r1.1, [], .error e)
    | .ok _ =>
      let r2 := settle exec r1.1 config.order_id buyer config.seller
        config.sell_asset config.sell_amount
      match r2.2 with
      | .error e => (r2.1, [], .error e)
      | .ok _ => (r2.1, [], .ok [.Settled timestamp])
  | _, _ => (w, [], .error .InvalidState)

end Sagas

/-- `Order::apply` (src/order/aggregate.rs lines 297-379); the fall
through arm is `unreachable!`, embedded as `none`. -/
def Order.apply (o : Order) (event : OrderEvent) : Option Order :=
  match o, event with
  | .Uninitialized, .Initialized config => some (.Initialized config)
  | .Initialized config, .Placed timestamp => some (.Placed config timestamp)
  | .Placed config _, .Cancelling timestamp reason =>
    some (.Cancelling config reason timestamp)
  | .Cancelling config reason _, .Cancelled timestamp =>
    some (.Cancelled config timestamp reason)
  | .Placed config _, .Buying buyer timestamp =>
    some (.Buying config buyer timestamp)
  | .Buying config buyer _, .Bought timestamp =>
    some (.Bought config buyer timestamp)
  | .Buying config _ _, .Failed timestamp reason =>
    some (.Failed config timestamp reason)
  | .Bought config _ _, .Settled timestamp => some (.Settled config timestamp)
  | .Buying config _ _, .Placed timestamp => some (.Placed config timestamp)
  | _, _ => none

/-! ## Transfer saga (src/transfer/aggregate.rs) -/

/-- Transfer `Config`. -/
structure TransferConfig where
  transfer_id : Nat
  from_account : String
  to_account : String
  asset : String
  amount : Nat
  timestamp : Nat
  description : String
  deriving DecidableEq, Repr

/-- The `Transfer` saga state. -/
inductive Transfer where
  | Uninitialized
  | Opened (config : TransferConfig)
  | Done (config : TransferConfig) (timestamp : Nat)
  | Failed (config : TransferConfig) (reason : String) (timestamp : Nat)
  | Canceled (config : TransferConfig) (reason : String)
  deriving DecidableEq, Repr

/-- `TransferEvent` as used by src/transfer/aggregate.rs. -/
inductive TransferEvent where
  | Opened (config : TransferConfig)
  | Failed (reason : String) (timestamp : Nat)
  | Done (timestamp : Nat)
  deriving DecidableEq, Repr

/-- `TransferError`; `AggregateError` wraps the whole engine error —
including the `UserError` case — exactly as the `Err(agg_err)` arms of
`TransferServices::debit`/`credit` do. -/
inductive TransferError where
  | InvalidState (msg : String)
  | AccountError (e : AccountError)
  | AggregateError
  deriving DecidableEq, Repr

/-- `BankAccountCommand::debit(txid, timestamp, to_account, asset,
amount)`. -/
def debitCmd (txid timestamp : Nat) (to_account asset : String)
    (amount : Nat) : AccountCommand :=
  .Transaction txid timestamp (.Debit to_account asset amount)

/-- `BankAccountCommand::reverse_debit`. -/
def reverseDebitCmd (txid timestamp : Nat) (to_account asset : String)
    (amount : Nat) : AccountCommand :=
  .Transaction txid timestamp (.ReverseDebit to_account asset amount)

/-- `BankAccountCommand::credit`. -/
def creditCmd (txid timestamp : Nat) (from_account asset : String)
    (amount : Nat) : AccountCommand :=
  .Transaction txid timestamp (.Credit from_account asset amount)

/-- `BankAccountCommand::reverse_credit`. -/
def reverseCreditCmd (txid timestamp : Nat) (from_account asset : String)
    (amount : Nat) : AccountCommand :=
  .Transaction txid timestamp (.ReverseCredit from_account asset amount)

/-- `TransferCommand` as used by src/transfer/aggregate.rs (`Open`
carrying the transfer configuration fields, and `Continue`). -/
inductive TransferCommand where
  | Open (config : TransferConfig)
  | Continue
  deriving DecidableEq, Repr

section TransferSaga

variable {σ : Type}

/-- `TransferServices::debit`: submit `Debit` on `from_account`;
`DuplicateTransaction` is success; on any other failure — domain or
infrastructure — the undo (`ReverseDebit` on `from_account`) is awaited
and the error is wrapped as `AggregateError`. -/
def TransferServices.debit (exec : σ → String → AccountCommand → σ × ExecResult)
    (w : σ) (txid : Nat) (from_account to_account asset : String)
    (amount timestamp : Nat) :
    σ × List Undo × Except TransferError Undo :=
  let undo : Undo :=
    ⟨from_account, reverseDebitCmd txid timestamp to_account asset amount⟩
  let r := exec w from_account (debitCmd txid timestamp to_account asset amount)
  match r.2 with
  | .ok => (r.1, [], .ok undo)
  | .userError (.DuplicateTransaction _) => (r.1, [], .ok undo)
  | .userError _ =>
    let f := fireUndo exec r.1 undo
    (f.1, f.2, .error .AggregateError)
  | .infraError =>
    let f := fireUndo exec r.1 undo
    (f.1, f.2, .error .AggregateError)

/-- `TransferServices::credit`: the mirror of `debit` on `to_account`,
with `ReverseCredit` as the undo. -/
def TransferServices.credit (exec : σ → String → AccountCommand → σ × ExecResult)
    (w : σ) (txid : Nat) (from_account to_account asset : String)
    (amount timestamp : Nat) :
    σ × List Undo × Except TransferError Undo :=
  let undo : Undo :=
    ⟨to_account, reverseCreditCmd txid timestamp from_account asset amount⟩
  let r := exec w to_account (creditCmd txid timestamp from_account asset amount)
  match r.2 with
  | .ok => (r.1, [], .ok undo)
  | .userError (.DuplicateTransaction _) => (r.1, [], .ok undo)
  | .userError _ =>
    let f := fireUndo exec r.1 undo
    (f.1, f.2, .error .AggregateError)
  | .infraError =>
    let f := fireUndo exec r.1 undo
    (f.1, f.2, .error .AggregateError)

/-- `Transfer::handle` (src/transfer/aggregate.rs lines 178-241).  The
`Continue` arm uses the hard-coded `timestamp = 0` of the source; on an
error exit after the debit leg, the still-uncommitted debit guard drops
and its undo is spawned (recorded after the compensations the failing
step itself fired). -/
def Transfer.handle (exec : σ → String → AccountCommand → σ × ExecResult)
    (w : σ) (t : Transfer) (c : TransferCommand) :
    σ × List Undo × Except TransferError (List TransferEvent) :=
  match c with
  | .Open config =>
    match t with
    | .Uninitialized => (w, [], .ok [.Opened config])
    | _ => (w, [], .error (.InvalidState "Transfer is already opened"))
  | .Continue =>
    match t with
    | .Opened config =>
      let timestamp := 0
      let rd := TransferServices.debit exec w config.transfer_id
        config.from_account config.to_account config.asset config.amount timestamp
      match rd.2.2 with
      | .error e => (rd.1, rd.2.1, .error e)
      | .ok debit_undo_guard =>
        let rc := TransferServices.credit exec rd.1 config.transfer_id
          config.from_account config.to_account config.asset config.amount timestamp
        match rc.2.2 with
        | .error e =>
          -- `?`: the debit guard drops without commit; its undo is spawned
          let f := fireUndo exec rc.1 debit_undo_guard
          (f.1, rd.2.1 ++ rc.2.1 ++ f.2, .error e)
        | .ok _credit_undo_guard =>
          -- credit_undo_guard.commit(); debit_undo_guard.commit()
          (rc.1, rd.2.1 ++ rc.2.1, .ok [.Done timestamp])
    | _ => (w, [], .error (.InvalidState "State is not Opened"))

end TransferSaga

/-! ## A concrete engine over in-memory Account aggregates

`execWorld` runs a command through `Account::handle` and folds the
emitted events through `Account::apply`, per the CQRS engine contract
(replay, handle, persist, project).  An apply panic would abort the
process; it is reported as an infrastructure failure here and is not
reached by any run below. -/

/-- The engine state: one `Account` aggregate per string id (a fresh id
replays to `Account::default()`, i.e. `Uninitialized`). -/
def World : Type := List (String × Account)

/-- Fold events through `Account::apply`. -/
def applyEvents (a : Account) : List AccountEvent → Option Account
  | [] => some a
  | e :: rest => (Account.apply a e).bind (fun a2 => applyEvents a2 rest)

/-- Execute one account command against the world. -/
def execWorld (w : World) (id : String) (cmd : AccountCommand) :
    World × ExecResult :=
  let acc := (lookupA w id).getD .Uninitialized
  match Account.handle acc cmd with
  | .error e => (w, .userError e)
  | .ok evs =>
    match applyEvents acc evs with
    | some acc2 => (insertA w id acc2, .ok)
    | none => (w, .infraError)

/-- Fold events through `Order::apply`. -/
def applyOrderEvents (o : Order) : List OrderEvent → Option Order
  | [] => some o
  | e :: rest => (Order.apply o e).bind (fun o2 => applyOrderEvents o2 rest)

/-- Drive one order command: run `Order::handle` against the world and
fold the emitted events through `Order::apply` (`none` when the handler
errored or an apply panicked). -/
def orderStep (w : World) (o : Order) (now : Nat) (c : OrderCommand) :
    World × Option Order :=
  let r := Order.handle execWorld w now o c
  match r.2.2 with
  | .error _ => (r.1, none)
  | .ok evs => (r.1, applyOrderEvents o evs)

/-! ### The §8 scenario 3 swap run (claim C1)

Seller "A" holds BTC=100, buyer "B" holds ETH=100; the order sells
BTC 10 for ETH 20 under order id `0xAA… ↦ 170`. -/

/-- An `InService` account holding one asset, with a fresh dedup window
of the default TTL. -/
def acctWith (id asset : String) (amount : Nat) : Account :=
  .InService
    { account_id := id
      assets := [(asset, amount)]
      reserving := []
      processed_transactions := ProcessedTransactions.new DEFAULT_TTL }

def swapWorld0 : World := [("A", acctWith "A" "BTC" 100), ("B", acctWith "B" "ETH" 100)]

def swapCfg : OrderConfig :=
  { order_id := 170
    seller := "A"
    sell_asset := "BTC"
    sell_amount := 10
    buy_asset := "ETH"
    buy_amount := 20
    timestamp := 1 }

/-- Open; Continue (seller lock); Buy; Continue (buyer lock); Continue
(both settle legs). -/
def swapRun : World × Option Order :=
  let s1 := orderStep swapWorld0 .Uninitialized 1 (.Open swapCfg)
  match s1.2 with
  | none => (s1.1, none)
  | some o1 =>
    let s2 := orderStep s1.1 o1 2 .Continue
    match s2.2 with
    | none => (s2.1, none)
    | some o2 =>
      let s3 := orderStep s2.1 o2 3 (.Buy "B" 3)
      match s3.2 with
      | none => (s3.1, none)
      | some o3 =>
        let s4 := orderStep s3.1 o3 4 .Continue
        match s4.2 with
        | none => (s4.1, none)
        | some o4 =>
          let s5 := orderStep s4.1 o4 5 .Continue
          (s5.1, s5.2)

/-- The final assets map of an account of the run's world. -/
def swapFinalAssets (id : String) : List (String × Nat) :=
  match (lookupA swapRun.1 id).getD .Uninitialized with
  | .InService s => s.assets
  | _ => []

/-- The final lock map of an account of the run's world. -/
def swapFinalReserving (id : String) : List (Nat × ReservedFunds) :=
  match (lookupA swapRun.1 id).getD .Uninitialized with
  | .InService s => s.reserving
  | _ => [(0, ⟨"", 0⟩)]

/-- Fold events through `AccountView::update`. -/
def applyViewEvents (v : AccountView) : List AccountEvent → Option AccountView
  | [] => some v
  | e :: rest => (AccountView.update v e).bind (fun v2 => applyViewEvents v2 rest)

/-- The `AccountView` of seller A over its event history in the swap run
(the opening Deposit stands in for the scenario's given starting
balance). -/
def swapViewA : Option AccountView :=
  applyViewEvents {}
    [.Lifecycle (.AccountOpened "A"),
     .Transaction 0 1 (.Deposited "BTC" 100),
     .Transaction 2 170 (.FundsLocked "BTC" 10),
     .Transaction 0 170 (.Settled "B" "BTC" 10 "ETH" 20)]

/-- The `AccountView` of buyer B over its event history in the swap run. -/
def swapViewB : Option AccountView :=
  applyViewEvents {}
    [.Lifecycle (.AccountOpened "B"),
     .Transaction 0 2 (.Deposited "ETH" 100),
     .Transaction 3 170 (.FundsLocked "ETH" 20),
     .Transaction 0 170 (.Settled "A" "ETH" 20 "BTC" 10)]

/-! ## Claim theorems -/

/-- C1, counterexample.  Running the §8 scenario 3 swap saga to
completion does NOT leave the Account aggregate balances at A: ETH=20
and B: BTC=10: the `Settled` apply only records the txid and removes the
lock, so the received amounts never reach the counterparty aggregate's
assets map — A ends with no ETH entry and B with no BTC entry, refuting
the claim at its own literal scenario. -/
theorem swap_run_aggregate_receive_is_zero :
    swapRun.2 = some (.Settled swapCfg 4) ∧
    getDA (swapFinalAssets "A") "ETH" 0 = 0 ∧
    getDA (swapFinalAssets "B") "BTC" 0 = 0 ∧
    ¬ (getDA (swapFinalAssets "A") "ETH" 0 = 20 ∧
       getDA (swapFinalAssets "B") "BTC" 0 = 10) := by
  decide

/-- C1, amended.  The swap run reaches `Settled` and leaves the Account
AGGREGATE balances at A: BTC=90 with no ETH entry and B: ETH=80 with no
BTC entry, both locks removed; the quoted final figures hold for the
read-side `AccountView` balances, which apply the `Settled` event's
receive leg: A's view shows BTC=90, ETH=20 and B's view shows BTC=10,
ETH=80. -/
theorem swap_run_final_state :
    swapRun.2 = some (.Settled swapCfg 4) ∧
    swapFinalAssets "A" = [("BTC", 90)] ∧
    swapFinalAssets "B" = [("ETH", 80)] ∧
    swapFinalReserving "A" = [] ∧
    swapFinalReserving "B" = [] ∧
    (swapViewA.map fun v => (getDA v.balance "BTC" 0, getDA v.balance "ETH" 0))
      = some (90, 20) ∧
    (swapViewB.map fun v => (getDA v.balance "BTC" 0, getDA v.balance "ETH" 0))
      = some (10, 80) := by
  decide

/-- The InService state of C2's underflow input: BTC balance 0, with
txid 1 recorded in the dedup window at timestamp 0 (as after a Credit of
100 BTC at timestamp 0 followed by a Withdraw of the full 100). -/
def c2UnderflowState : BankAccountState :=
  { account_id := "A"
    assets := [("BTC", 0)]
    reserving := []
    processed_transactions :=
      { ttl := DEFAULT_TTL, txids := [(1, 0)], timeseries := [(0, 1)] } }

/-- The InService state of C2's overflow input: BTC balance `u64::MAX`,
empty dedup window. -/
def c2OverflowState : BankAccountState :=
  { account_id := "A"
    assets := [("BTC", U64MAX)]
    reserving := []
    processed_transactions := ProcessedTransactions.new DEFAULT_TTL }

/-- C2: the handler does NOT reject every command whose apply would
overflow or underflow.  A `ReverseCredit` of 100 BTC against a recorded
txid with current BTC balance 0 is accepted by the handler, and applying
the emitted `CreditReversed` hits the strict `checked_sub` (a panic,
embedded as `none`); likewise a `Deposit` of 1 BTC onto a `u64::MAX`
balance is accepted and its apply hits the strict `checked_add`. -/
theorem handler_accepts_apply_panicking_commands :
    Account.handle (.InService c2UnderflowState)
        (.Transaction 1 5 (.ReverseCredit "F" "BTC" 100))
      = .ok [.Transaction 0 1 (.CreditReversed "F" "BTC" 100)] ∧
    Account.apply (.InService c2UnderflowState)
        (.Transaction 0 1 (.CreditReversed "F" "BTC" 100)) = none ∧
    Account.handle (.InService c2OverflowState)
        (.Transaction 2 0 (.Deposit "BTC" 1))
      = .ok [.Transaction 0 2 (.Deposited "BTC" 1)] ∧
    Account.apply (.InService c2OverflowState)
        (.Transaction 0 2 (.Deposited "BTC" 1)) = none := by
  decide

/-- The dedup-window insert chain of C3's failing input: TTL 10, then
inserts of txid 1 at timestamp 0, txid 2 at timestamp 5, txid 3 at
timestamp 12. -/
def c3Chain : Except Nat ProcessedTransactions := do
  let p1 ← (ProcessedTransactions.new 10).insert 1 0
  let p2 ← p1.insert 2 5
  p2.insert 3 12

/-- C3: the sliding-TTL eviction invariant fails.  After the inserts
(1,ts 0), (2,ts 5), (3,ts 12) with TTL 10, txid 1 — first seen at 0,
with 0 + TTL < 12 — is still in the map (the prune loop pushed the
popped entry back with the NEW timestamp, so its queue timestamp was
bumped from 0 to 5 and then survived the prune at 12), and a reuse of
txid 1 at timestamp 13 is rejected as a duplicate instead of accepted as
new. -/
theorem dedup_window_retains_expired_entry :
    c3Chain = .ok
      { ttl := 10
        txids := [(1, 0), (2, 5), (3, 12)]
        timeseries := [(12, 1), (5, 2), (12, 3)] } ∧
    (∀ p, c3Chain = .ok p →
      p.get_timestamp 1 = some 0 ∧ 0 + p.ttl < 12 ∧
      p.insert 1 13 = .error 0) := by
  constructor
  · decide
  · intro p hp
    have hc : c3Chain = .ok
        { ttl := 10
          txids := [(1, 0), (2, 5), (3, 12)]
          timeseries := [(12, 1), (5, 2), (12, 3)] } := by decide
    rw [hc] at hp
    injection hp with h
    subst h
    refine ⟨by decide, by decide, by decide⟩

/-- The order configuration of C4's failing input. -/
def c4Cfg : OrderConfig :=
  { order_id := 170
    seller := "A"
    sell_asset := "BTC"
    sell_amount := 10
    buy_asset := "ETH"
    buy_amount := 20
    timestamp := 1 }

/-- The executor of C4's failing input: the seller-side `LockFunds`
fails with the domain error `InsufficientFunds`. -/
def c4Exec : Unit → String → AccountCommand → Unit × ExecResult :=
  fun _ _ _ => ((), .userError .InsufficientFunds)

/-- C4: from `Initialized`, `Continue` with a failing seller lock emits
`Failed` — but `Order::apply` has NO `(Initialized, Failed)` arm: the
replay of the just-emitted event from the very state that emitted it
hits the `unreachable!` fall-through (embedded as `none`), so the
§4.2 transition Initialized --Continue--> Failed cannot be applied. -/
theorem order_failed_event_unappliable_from_initialized :
    Order.handle c4Exec () 9 (.Initialized c4Cfg) .Continue
      = ((), [⟨"A", unlockFundsCmd 170⟩],
         .ok [.Failed 9 "Failed to lock funds: InsufficientFunds"]) ∧
    Order.apply (.Initialized c4Cfg)
        (.Failed 9 "Failed to lock funds: InsufficientFunds") = none := by
  decide

/-- The view of C8's failing input: 10 BTC locked, 5 ETH spendable. -/
def c8View : AccountView :=
  { account_id := some "A"
    is_disabled := false
    balance := [("ETH", 5)]
    locked_balance := [("BTC", 10)]
    recent_ledger := [] }

/-- C8's `Settled` event: send 10 BTC, receive 20 ETH. -/
def c8Event : AccountEvent :=
  .Transaction 7 99 (.Settled "B" "BTC" 10 "ETH" 20)

/-- C9: applying `AccountDisabled` then `AccountEnabled` to an
`InService` account returns it to `InService` with the entire
`BankAccountState` — account id, assets, locks, dedup window —
unchanged: the apply arms move the state across the variants verbatim. -/
theorem disable_enable_preserves_state (s : BankAccountState) :
    Account.apply (.InService s) (.Lifecycle .AccountDisabled)
      = some (.Disabled s) ∧
    Account.apply (.Disabled s) (.Lifecycle .AccountEnabled)
      = some (.InService s) := by
  exact ⟨rfl, rfl⟩

/-- The InService state of C7's counterexample: txid 1 is in the dedup
window (first seen at 0, as after a settled retry) and no lock matches
it. -/
def c7State : BankAccountState :=
  { account_id := "A"
    assets := [("BTC", 90)]
    reserving := []
    processed_transactions :=
      { ttl := DEFAULT_TTL, txids := [(1, 0)], timeseries := [(0, 1)] } }

/-- C7, counterexample.  A `Settle` whose txid matches no lock does NOT
always fail with `LockNotFound`: when the txid is already in the dedup
window (the retry-after-applied-settle case the claim names), the dedup
check runs first and the command fails with `DuplicateTransaction`
instead. -/
theorem settle_retry_fails_duplicate_not_lock_not_found :
    Account.handle (.InService c7State)
        (.Transaction 1 9 (.Settle "B" "ETH" 20))
      = .error (.DuplicateTransaction 0) ∧
    AccountError.DuplicateTransaction 0 ≠ .LockNotFound := by
  decide

/-- C7, amended.  For an `InService` account, `Settle` fails with
`LockNotFound` exactly when the txid is fresh (not in the dedup window)
AND no lock matches it; when the txid is already in the dedup window the
command fails with `DuplicateTransaction(prior_ts)` regardless of lock
presence, because the dedup check precedes the lock check. -/
theorem settle_lock_not_found_characterization
    (s : BankAccountState) (txid ts : Nat) (to_account receive_asset : String)
    (receive_amount t : Nat) :
    (Account.handle (.InService s)
        (.Transaction txid ts (.Settle to_account receive_asset receive_amount))
      = .error .LockNotFound
      ↔ s.processed_transactions.get_timestamp txid = none ∧
        lookupA s.reserving txid = none) ∧
    (s.processed_transactions.get_timestamp txid = some t →
      Account.handle (.InService s)
          (.Transaction txid ts (.Settle to_account receive_asset receive_amount))
        = .error (.DuplicateTransaction t)) := by
  cases hdt : s.processed_transactions.get_timestamp txid with
  | some prior =>
    constructor
    · simp [Account.handle, hdt]
    · intro hp
      injection hp with h
      subst h
      simp [Account.handle, hdt]
  | none =>
    constructor
    · cases hrl : lookupA s.reserving txid with
      | some locked => simp [Account.handle, hdt, hrl]
      | none => simp [Account.handle, hdt, hrl]
    · intro hp
      cases hp

/-- C7 witness: the characterization applied at `c7State` (txid 1 in the
dedup window at 0) and at a fresh-txid, no-lock state. -/
theorem settle_lock_not_found_characterization_witness :
    Account.handle (.InService c7State)
        (.Transaction 1 9 (.Settle "B" "ETH" 20))
      = .error (.DuplicateTransaction 0) ∧
    Account.handle (.InService c7State)
        (.Transaction 2 9 (.Settle "B" "ETH" 20))
      = .error .LockNotFound :=
  ⟨(settle_lock_not_found_characterization c7State 1 9 "B" "ETH" 20 0).2 (by decide),
   (settle_lock_not_found_characterization c7State 2 9 "B" "ETH" 20 0).1.mpr
     (by decide)⟩

/-! ### Dedup-window insertion lemmas -/

theorem pruneFront_lookup_append (ttl ts txid : Nat) :
    ∀ (old : List (Nat × Nat)) (m : List (Nat × Nat)),
      (∀ p ∈ old, p.2 ≠ txid) →
      lookupA (ProcessedTransactions.pruneFront ttl ts
        (old ++ [(ts, txid)]) m).2 txid = lookupA m txid := by
  intro old
  induction old with
  | nil =>
    intro m _
    have hlt : ¬ (ts + ttl < ts) := by omega
    simp [ProcessedTransactions.pruneFront, hlt]
  | cons p rest ih =>
    intro m hp
    obtain ⟨a, b⟩ := p
    have hb : b ≠ txid := hp (a, b) (List.mem_cons_self _ _)
    by_cases hlt : a + ttl < ts
    · have hrest : ∀ q ∈ rest, q.2 ≠ txid :=
        fun q hq => hp q (List.mem_cons_of_mem _ hq)
      calc lookupA (ProcessedTransactions.pruneFront ttl ts
              (((a, b) :: rest) ++ [(ts, txid)]) m).2 txid
          = lookupA (ProcessedTransactions.pruneFront ttl ts
              (rest ++ [(ts, txid)]) (eraseA m b)).2 txid := by
            simp [ProcessedTransactions.pruneFront, hlt]
        _ = lookupA (eraseA m b) txid := ih (eraseA m b) hrest
        _ = lookupA m txid := lookupA_eraseA_ne m b txid (fun h => hb h.symm)
    · simp [ProcessedTransactions.pruneFront, hlt]

/-- A fresh txid inserts successfully (the `Err` arm needs a prior
entry). -/
theorem insert_fresh_ok (pt : ProcessedTransactions) (txid ts : Nat)
    (hfresh : lookupA pt.txids txid = none) :
    pt.insert txid ts = .ok
      { ttl := pt.ttl
        txids := (ProcessedTransactions.pruneFront pt.ttl ts
          (pt.timeseries ++ [(ts, txid)]) (insertA pt.txids txid ts)).2
        timeseries := (ProcessedTransactions.pruneFront pt.ttl ts
          (pt.timeseries ++ [(ts, txid)]) (insertA pt.txids txid ts)).1 } := by
  simp [ProcessedTransactions.insert, hfresh]

/-- As long as the timeseries queue does not already mention the fresh
txid, the entry just inserted survives the prune with its timestamp. -/
theorem insert_fresh_lookup (pt : ProcessedTransactions) (txid ts : Nat)
    (hfresh : lookupA pt.txids txid = none)
    (hseries : ∀ p ∈ pt.timeseries, p.2 ≠ txid) :
    ∀ pt2, pt.insert txid ts = .ok pt2 →
      lookupA pt2.txids txid = some ts := by
  intro pt2 h2
  rw [insert_fresh_ok pt txid ts hfresh] at h2
  injection h2 with h2
  subst h2
  calc lookupA (ProcessedTransactions.pruneFront pt.ttl ts
          (pt.timeseries ++ [(ts, txid)]) (insertA pt.txids txid ts)).2 txid
      = lookupA (insertA pt.txids txid ts) txid :=
        pruneFront_lookup_append pt.ttl ts txid pt.timeseries _ hseries
    _ = some ts := lookupA_insertA_self _ _ _

/-- `ProcessedTransactions::remove` of a recorded txid. -/
theorem remove_recorded (pt : ProcessedTransactions) (txid ts : Nat)
    (h : lookupA pt.txids txid = some ts) :
    pt.remove txid = some (ts,
      { ttl := pt.ttl
        txids := eraseA pt.txids txid
        timeseries := pt.timeseries.filter (fun p => p.2 ≠ txid) }) := by
  simp [ProcessedTransactions.remove, h]

/-- C5: `Debit(txid=X)` then `ReverseDebit(txid=X)` on an `InService`
account restores the pre-debit balance of the asset exactly and removes
X from the dedup window, so a subsequent `Debit(txid=X)` is accepted as
a new transaction.  The two structural hypotheses are the dedup-window
consistency invariants (X is fresh in both the map and the queue) and
the `u64` range bound on the stored balance. -/
theorem debit_reverse_debit_roundtrip
    (s : BankAccountState) (txid ts1 ts2 ts3 : Nat)
    (to_account asset : String) (amount : Nat)
    (hfresh : s.processed_transactions.get_timestamp txid = none)
    (hseries : ∀ p ∈ s.processed_transactions.timeseries, p.2 ≠ txid)
    (hbal : amount ≤ getDA s.assets asset 0)
    (hmax : getDA s.assets asset 0 ≤ U64MAX) :
    ∃ s1 s2,
      Account.handle (.InService s)
          (.Transaction txid ts1 (.Debit to_account asset amount))
        = .ok [.Transaction ts1 txid (.Debited to_account asset amount)] ∧
      Account.apply (.InService s)
          (.Transaction ts1 txid (.Debited to_account asset amount))
        = some (.InService s1) ∧
      Account.handle (.InService s1)
          (.Transaction txid ts2 (.ReverseDebit to_account asset amount))
        = .ok [.Transaction ts1 txid (.DebitReversed to_account asset amount)] ∧
      Account.apply (.InService s1)
          (.Transaction ts1 txid (.DebitReversed to_account asset amount))
        = some (.InService s2) ∧
      getDA s2.assets asset 0 = getDA s.assets asset 0 ∧
      s2.processed_transactions.get_timestamp txid = none ∧
      Account.handle (.InService s2)
          (.Transaction txid ts3 (.Debit to_account asset amount))
        = .ok [.Transaction ts3 txid (.Debited to_account asset amount)] := by
  have hnl : ¬ (getDA s.assets asset 0 < amount) := not_lt.mpr hbal
  obtain hins := insert_fresh_ok s.processed_transactions txid ts1 hfresh
  set pt1 : ProcessedTransactions :=
    { ttl := s.processed_transactions.ttl
      txids := (ProcessedTransactions.pruneFront s.processed_transactions.ttl ts1
        (s.processed_transactions.timeseries ++ [(ts1, txid)])
        (insertA s.processed_transactions.txids txid ts1)).2
      timeseries := (ProcessedTransactions.pruneFront s.processed_transactions.ttl ts1
        (s.processed_transactions.timeseries ++ [(ts1, txid)])
        (insertA s.processed_transactions.txids txid ts1)).1 } with hpt1
  have hlk1 : lookupA pt1.txids txid = some ts1 :=
    insert_fresh_lookup s.processed_transactions txid ts1 hfresh hseries pt1 hins
  set b := getDA s.assets asset 0 with hb
  set s1 : BankAccountState :=
    { account_id := s.account_id
      assets := insertA s.assets asset (b - amount)
      reserving := s.reserving
      processed_transactions := pt1 } with hs1
  have hbal1 : getDA s1.assets asset 0 = b - amount := by
    simp [hs1, getDA, lookupA_insertA_self]
  have hrm := remove_recorded pt1 txid ts1 hlk1
  set pt2 : ProcessedTransactions :=
    { ttl := pt1.ttl
      txids := eraseA pt1.txids txid
      timeseries := pt1.timeseries.filter (fun p => p.2 ≠ txid) } with hpt2
  set s2 : BankAccountState :=
    { account_id := s1.account_id
      assets := insertA s1.assets asset (b - amount + amount)
      reserving := s1.reserving
      processed_transactions := pt2 } with hs2
  have hbal2 : getDA s2.assets asset 0 = b := by
    simp [hs2, getDA, lookupA_insertA_self, Nat.sub_add_cancel hbal]
  have hlk2 : s2.processed_transactions.get_timestamp txid = none := by
    simp [hs2, hpt2, ProcessedTransactions.get_timestamp, lookupA_eraseA_self]
  refine ⟨s1, s2, ?_, ?_, ?_, ?_, hbal2, hlk2, ?_⟩
  · simp [Account.handle, hfresh, hnl]
  · simp [Account.apply, BankAccountState.save_txid, hins, checkedSub, hbal,
      hs1, hpt1]
  · simp [Account.handle, ProcessedTransactions.get_timestamp, hs1, hlk1]
  · have hle : b - amount + amount ≤ U64MAX := by
      rw [Nat.sub_add_cancel hbal]; exact hmax
    simp [Account.apply, BankAccountState.remove_txid, hs1, hrm, checkedAdd,
      hbal1, hle, hs2, hpt2]
  · have hnl2 : ¬ (getDA s2.assets asset 0 < amount) := by
      rw [hbal2]; exact hnl
    simp [Account.handle, ProcessedTransactions.get_timestamp, hlk2, hnl2,
      lookupA_eraseA_self]

/-- The concrete account state of C5's witness: BTC balance 100, empty
dedup window. -/
def c5State : BankAccountState :=
  { account_id := "A"
    assets := [("BTC", 100)]
    reserving := []
    processed_transactions := ProcessedTransactions.new DEFAULT_TTL }

/-- C5 witness: the round trip at `c5State`, debiting 40 BTC under
txid 7. -/
theorem debit_reverse_debit_roundtrip_witness :
    ∃ s1 s2,
      Account.handle (.InService c5State)
          (.Transaction 7 1 (.Debit "B" "BTC" 40))
        = .ok [.Transaction 1 7 (.Debited "B" "BTC" 40)] ∧
      Account.apply (.InService c5State)
          (.Transaction 1 7 (.Debited "B" "BTC" 40))
        = some (.InService s1) ∧
      Account.handle (.InService s1)
          (.Transaction 7 2 (.ReverseDebit "B" "BTC" 40))
        = .ok [.Transaction 1 7 (.DebitReversed "B" "BTC" 40)] ∧
      Account.apply (.InService s1)
          (.Transaction 1 7 (.DebitReversed "B" "BTC" 40))
        = some (.InService s2) ∧
      getDA s2.assets "BTC" 0 = getDA c5State.assets "BTC" 0 ∧
      s2.processed_transactions.get_timestamp 7 = none ∧
      Account.handle (.InService s2)
          (.Transaction 7 9 (.Debit "B" "BTC" 40))
        = .ok [.Transaction 9 7 (.Debited "B" "BTC" 40)] :=
  debit_reverse_debit_roundtrip c5State 7 1 2 9 "B" "BTC" 40
    (by decide) (by simp [c5State, ProcessedTransactions.new])
    (by decide) (by decide)

theorem insertA_isEmpty_false {α β : Type} [DecidableEq α]
    (l : List (α × β)) (k : α) (v : β) : (insertA l k v).isEmpty = false := by
  cases h : insertA l k v with
  | nil => exact absurd h (insertA_ne_nil l k v)
  | cons a t => rfl

/-- C10: on an `InService` account with no entry for `asset`, a
`Withdraw` of amount 0 (and likewise a `Debit` of amount 0) under a
fresh txid is accepted, and its apply creates a zero-balance entry for
the asset; `Close` then fails with `AccountNotEmpty` even though every
balance is zero and no locks are held, because `is_empty` tests map
emptiness, not zero balances. -/
theorem zero_withdraw_creates_entry_blocking_close
    (s : BankAccountState) (asset to_account : String) (txid ts : Nat)
    (hnoasset : lookupA s.assets asset = none)
    (hfresh : s.processed_transactions.get_timestamp txid = none) :
    ∃ s1 s2,
      Account.handle (.InService s) (.Transaction txid ts (.Withdraw asset 0))
        = .ok [.Transaction ts txid (.Withdrew asset 0)] ∧
      Account.apply (.InService s) (.Transaction ts txid (.Withdrew asset 0))
        = some (.InService s1) ∧
      lookupA s1.assets asset = some 0 ∧
      Account.handle (.InService s1) (.Lifecycle .Close)
        = .error .AccountNotEmpty ∧
      Account.handle (.InService s)
          (.Transaction txid ts (.Debit to_account asset 0))
        = .ok [.Transaction ts txid (.Debited to_account asset 0)] ∧
      Account.apply (.InService s)
          (.Transaction ts txid (.Debited to_account asset 0))
        = some (.InService s2) ∧
      lookupA s2.assets asset = some 0 ∧
      Account.handle (.InService s2) (.Lifecycle .Close)
        = .error .AccountNotEmpty := by
  obtain hins := insert_fresh_ok s.processed_transactions txid ts hfresh
  set pt1 : ProcessedTransactions :=
    { ttl := s.processed_transactions.ttl
      txids := (ProcessedTransactions.pruneFront s.processed_transactions.ttl ts
        (s.processed_transactions.timeseries ++ [(ts, txid)])
        (insertA s.processed_transactions.txids txid ts)).2
      timeseries := (ProcessedTransactions.pruneFront s.processed_transactions.ttl ts
        (s.processed_transactions.timeseries ++ [(ts, txid)])
        (insertA s.processed_transactions.txids txid ts)).1 } with hpt1
  have hzero : getDA s.assets asset 0 = 0 := by simp [getDA, hnoasset]
  set s1 : BankAccountState :=
    { account_id := s.account_id
      assets := insertA s.assets asset 0
      reserving := s.reserving
      processed_transactions := pt1 } with hs1
  refine ⟨s1, s1, ?_, ?_, ?_, ?_, ?_, ?_, ?_, ?_⟩
  · simp [Account.handle, hfresh]
  · simp [Account.apply, BankAccountState.save_txid, hins, checkedSub, hzero,
      hs1, hpt1]
  · simp [hs1, lookupA_insertA_self]
  · simp [Account.handle, BankAccountState.is_empty, hs1, insertA_isEmpty_false]
  · simp [Account.handle, hfresh]
  · simp [Account.apply, BankAccountState.save_txid, hins, checkedSub, hzero,
      hs1, hpt1]
  · simp [hs1, lookupA_insertA_self]
  · simp [Account.handle, BankAccountState.is_empty, hs1, insertA_isEmpty_false]

/-- The empty `InService` account of C10's witness. -/
def c10State : BankAccountState :=
  { account_id := "A"
    assets := []
    reserving := []
    processed_transactions := ProcessedTransactions.new DEFAULT_TTL }

/-- C10 witness: the zero-amount Withdraw/Debit at an empty account,
asset ETH, txid 3. -/
theorem zero_withdraw_creates_entry_blocking_close_witness :
    ∃ s1 s2,
      Account.handle (.InService c10State) (.Transaction 3 1 (.Withdraw "ETH" 0))
        = .ok [.Transaction 1 3 (.Withdrew "ETH" 0)] ∧
      Account.apply (.InService c10State) (.Transaction 1 3 (.Withdrew "ETH" 0))
        = some (.InService s1) ∧
      lookupA s1.assets "ETH" = some 0 ∧
      Account.handle (.InService s1) (.Lifecycle .Close)
        = .error .AccountNotEmpty ∧
      Account.handle (.InService c10State)
          (.Transaction 3 1 (.Debit "T" "ETH" 0))
        = .ok [.Transaction 1 3 (.Debited "T" "ETH" 0)] ∧
      Account.apply (.InService c10State)
          (.Transaction 1 3 (.Debited "T" "ETH" 0))
        = some (.InService s2) ∧
      lookupA s2.assets "ETH" = some 0 ∧
      Account.handle (.InService s2) (.Lifecycle .Close)
        = .error .AccountNotEmpty :=
  zero_withdraw_creates_entry_blocking_close c10State "ETH" "T" 3 1
    (by decide) (by decide)

/-- The transfer configuration of C6's counterexample: 5 BTC from X to
Y under transfer id 7. -/
def c6Cfg : TransferConfig :=
  { transfer_id := 7
    from_account := "X"
    to_account := "Y"
    asset := "BTC"
    amount := 5
    timestamp := 1
    description := "d" }

/-- The executor of C6's counterexample: the first engine call (the
debit leg) succeeds, every later call fails with an INFRASTRUCTURE
error — in particular the credit leg. -/
def c6Exec : Nat → String → AccountCommand → Nat × ExecResult :=
  fun n _ _ => (n + 1, if n = 0 then .ok else .infraError)

/-- C6, counterexample.  When the credit leg of a transfer fails with an
infrastructure error (not a domain `UserError`), compensation IS issued:
the credit step awaits its own `ReverseCredit` undo and the dropped
debit guard fires `ReverseDebit` against the debited account — refuting
the claim that no compensation is issued on infrastructure errors. -/
theorem transfer_compensates_on_infra_error :
    (Transfer.handle c6Exec 0 (.Opened c6Cfg) .Continue).2.1
      = [⟨"Y", reverseCreditCmd 7 0 "X" "BTC" 5⟩,
         ⟨"X", reverseDebitCmd 7 0 "Y" "BTC" 5⟩] ∧
    (Transfer.handle c6Exec 0 (.Opened c6Cfg) .Continue).2.1 ≠ [] ∧
    (Transfer.handle c6Exec 0 (.Opened c6Cfg) .Continue).2.2
      = .error .AggregateError := by
  decide

/-- C6, amended.  The sagas fire compensations on ANY non-duplicate
failure, domain or infrastructure alike: (a) in a transfer whose debit
leg landed (success or treated-as-success `DuplicateTransaction`), a
credit-leg failure of EITHER kind fires the credit step's own
`ReverseCredit` undo and then, by the dropped guard, `ReverseDebit`
against the debited account; (b) the order saga's `lock_funds` awaits
its `UnlockFunds` undo whenever the lock fails with any error other than
the treated-as-success `DuplicateLock` — including infrastructure
errors. -/
theorem saga_compensation_fires_on_any_error {σ : Type}
    (exec : σ → String → AccountCommand → σ × ExecResult)
    (w w1 w2 : σ) (cfg : TransferConfig) (rd rc : ExecResult)
    (hd : exec w cfg.from_account
        (debitCmd cfg.transfer_id 0 cfg.to_account cfg.asset cfg.amount)
      = (w1, rd))
    (hdok : rd = .ok ∨ ∃ td, rd = .userError (.DuplicateTransaction td))
    (hc : exec w1 cfg.to_account
        (creditCmd cfg.transfer_id 0 cfg.from_account cfg.asset cfg.amount)
      = (w2, rc))
    (hcfail : (∃ ae, rc = .userError ae ∧ ∀ u, ae ≠ .DuplicateTransaction u)
      ∨ rc = .infraError)
    (w3 w4 : σ) (oid ts : Nat) (seller asset : String) (amount : Nat)
    (rl : ExecResult)
    (hl : exec w3 seller (lockFundsCmd oid ts asset amount) = (w4, rl))
    (hlfail : (∃ ae, rl = .userError ae ∧ ae ≠ .DuplicateLock)
      ∨ rl = .infraError) :
    (Transfer.handle exec w (.Opened cfg) .Continue).2
      = ([⟨cfg.to_account,
           reverseCreditCmd cfg.transfer_id 0 cfg.from_account cfg.asset cfg.amount⟩,
          ⟨cfg.from_account,
           reverseDebitCmd cfg.transfer_id 0 cfg.to_account cfg.asset cfg.amount⟩],
         .error .AggregateError) ∧
    (∃ e, (lock_funds exec w3 oid seller asset amount ts).2
      = ([⟨seller, unlockFundsCmd oid⟩], .error e)) := by
  constructor
  · rcases hcfail with ⟨ae, hrc, hane⟩ | hrc
    · subst hrc
      rcases hdok with hrd | ⟨td, hrd⟩ <;> subst hrd <;>
        cases ae <;>
          first
          | exact absurd rfl (hane _)
          | simp [Transfer.handle, TransferServices.debit,
              TransferServices.credit, fireUndo, hd, hc]
    · subst hrc
      rcases hdok with hrd | ⟨td, hrd⟩ <;> subst hrd <;>
        simp [Transfer.handle, TransferServices.debit,
          TransferServices.credit, fireUndo, hd, hc]
  · rcases hlfail with ⟨ae, hrl, hane⟩ | hrl
    · subst hrl
      refine ⟨.AccountError ae, ?_⟩
      cases ae <;>
        first
        | exact absurd rfl hane
        | simp [lock_funds, fireUndo, hl]
    · subst hrl
      refine ⟨.AggregateError, ?_⟩
      simp [lock_funds, fireUndo, hl]

/-- C6 witness: the amended theorem applied to the concrete executor of
the counterexample (debit ok, credit infra-failed, lock infra-failed). -/
theorem saga_compensation_fires_on_any_error_witness :
    (Transfer.handle c6Exec 0 (.Opened c6Cfg) .Continue).2
      = ([⟨"Y", reverseCreditCmd 7 0 "X" "BTC" 5⟩,
          ⟨"X", reverseDebitCmd 7 0 "Y" "BTC" 5⟩],
         .error .AggregateError) ∧
    (∃ e, (lock_funds c6Exec 5 170 "A" "BTC" 10 2).2
      = ([⟨"A", unlockFundsCmd 170⟩], .error e)) :=
  saga_compensation_fires_on_any_error c6Exec 0 1 2 c6Cfg
    .ok .infraError (by decide) (Or.inl rfl) (by decide) (Or.inr rfl)
    5 6 170 2 "A" "BTC" 10 .infraError (by decide) (Or.inr rfl)

/-- C8: processing a `Settled` event does NOT decrease
`locked_balance[send_asset]`: the source computes
`e.checked_sub(send_amount)` but discards the result instead of
assigning it back, so the locked balance stays at 10 where the claim
requires 0; the receive side and the ledger push do happen (balance
ETH 5 → 25, one entry pushed to the front). -/
theorem settled_view_locked_balance_unchanged :
    (AccountView.update c8View c8Event).map
        (fun v => (getDA v.locked_balance "BTC" 0,
                   getDA v.balance "ETH" 0,
                   v.recent_ledger))
      = some (10, 25, [⟨7, 99, .Settlement "B" "BTC" 10 "ETH" 20⟩]) ∧
    ¬ ((AccountView.update c8View c8Event).map
        (fun v => getDA v.locked_balance "BTC" 0) = some 0) := by
  decide

end CqrsAccount
